import Mathlib

/-!
Shallow embedding of the batch fetch-with-retry orchestrator of the
Twitter profile dashboard (src/main.py): the async functions
`fetch_user_data` and `main`, together with a small-step interleaving
semantics for the semaphore-gated concurrent execution of the batch.

The transport layer (aiohttp session GETs and JSON parsing) is modelled
by an oracle `Transport` giving, per attempt index, the outcome of the
profile GET and of the chained image GET.  Each fetch produces, besides
its returned dict, a trace of observable events (semaphore acquire and
release, the two kinds of GET with their headers, and backoff sleeps),
over which the temporal claims are stated.
-/

/-- A JSON-ish value as stored in a parsed profile dict; `null` is Python
`None`, `bytes` is a raw byte payload as read from the image response. -/
inductive JVal where
  | str (s : String)
  | num (n : Int)
  | bytes (b : List Nat)
  | null
  deriving Repr, DecidableEq

/-- Python truthiness of a `JVal`, used for `if avatar_url:`. -/
def JVal.truthy : JVal → Bool
  | .str s => s != ""
  | .num n => n != 0
  | .bytes b => !b.isEmpty
  | .null => false

/-- Truthiness of `data.get(key)`: a missing key gives Python `None`,
which is falsy. -/
def truthyOpt : Option JVal → Bool
  | some v => v.truthy
  | none => false

/-- A Python dict with string keys, as an association list. -/
abbrev Dict := List (String × JVal)

/-- Python `d.get(k)`: the value at the first binding of `k`, if any. -/
def dget (d : Dict) (k : String) : Option JVal :=
  (d.find? (fun p => p.1 == k)).map (fun p => p.2)

/-- Python `d[k] = v`: overwrite the binding of `k` when present, append it
otherwise. -/
def dset (d : Dict) (k : String) (v : JVal) : Dict :=
  if d.any (fun p => p.1 == k) then
    d.map (fun p => if p.1 == k then (k, v) else p)
  else d ++ [(k, v)]

/-- Observable events of one fetch sequence: semaphore traffic, the two
HTTP GETs with the headers they carry, and the backoff sleeps. -/
inductive Ev where
  | acquire
  | release
  | profileGet (url : String) (headers : List (String × String))
  | imageGet (url : JVal) (headers : List (String × String))
  | sleep (seconds : Nat)
  deriving Repr, DecidableEq

/-- Transport oracle for one task: for each attempt index, the outcome of
the profile GET (a raised transport exception, or a status code together
with the result of parsing the body as JSON) and of the image GET at a
given url value (a raised exception, or a status code and the raw bytes
read). -/
structure Transport where
  profile : Nat → Except String (Nat × Except String Dict)
  image : Nat → JVal → Except String (Nat × List Nat)

/-- The constant `CONCURRENCY_LIMIT = 20` from src/main.py. -/
def CONCURRENCY_LIMIT : Nat := 20

/-- The constant `RETRIES = 3` from src/main.py (a Python int, so modelled in `Int`). -/
def RETRIES : Int := 3

/-- The constant `AUTHORIZATION_HEADER = "Bearer " + st.secrets[...]`, parametrised by
the injected secret key. -/
def AUTHORIZATION_HEADER (key : String) : String := "Bearer " ++ key

/-- The profile endpoint url built from the username. -/
def apiUrl (username : String) : String :=
  "https://tw-go-data-api.c2.108capital.ltd/open/profile?username=" ++ username

/-- The headers dict passed to the profile GET. -/
def authHeaders (key : String) : List (String × String) :=
  [("Authorization", AUTHORIZATION_HEADER key)]

/-- One iteration of the retry loop body of `fetch_user_data`: enter the
semaphore, profile GET (raising on non-200 status or parse failure), then
either the chained image GET (raising on its failure or non-200) or
`avatar_image = None`, leaving the semaphore on every path.  Returns the
trace of the iteration and either the dict returned by the `return data`
statement or the exception message caught by the `except` clause. -/
def attemptStep (key username : String) (t : Transport) (attempt : Nat) :
    List Ev × Except String Dict :=
  match t.profile attempt with
  | .error e =>
    ([.acquire, .profileGet (apiUrl username) (authHeaders key), .release], .error e)
  | .ok (status, parsed) =>
    if status ≠ 200 then
      ([.acquire, .profileGet (apiUrl username) (authHeaders key), .release],
       .error ("HTTP Error " ++ toString status))
    else
      match parsed with
      | .error e =>
        ([.acquire, .profileGet (apiUrl username) (authHeaders key), .release], .error e)
      | .ok data =>
        if truthyOpt (dget data "avatar") then
          match t.image attempt ((dget data "avatar").getD .null) with
          | .error e =>
            ([.acquire, .profileGet (apiUrl username) (authHeaders key),
              .imageGet ((dget data "avatar").getD .null) [], .release],
             .error e)
          | .ok (ist, content) =>
            if ist ≠ 200 then
              ([.acquire, .profileGet (apiUrl username) (authHeaders key),
                .imageGet ((dget data "avatar").getD .null) [], .release],
               .error ("HTTP Error " ++ toString ist ++ " while fetching avatar image."))
            else
              ([.acquire, .profileGet (apiUrl username) (authHeaders key),
                .imageGet ((dget data "avatar").getD .null) [], .release],
               .ok (dset data "avatar_image" (.bytes content)))
        else
          ([.acquire, .profileGet (apiUrl username) (authHeaders key), .release],
           .ok (dset data "avatar_image" .null))

/-- The retry loop of `fetch_user_data` over the remaining attempt
indices: on a caught exception, sleep 1 and continue when
`attempt < RETRIES - 1`, otherwise return the error dict; an empty range
falls through the loop and returns Python `None` (modelled `none`). -/
def fetchGo (key username : String) (t : Transport) (retries : Int) :
    List Nat → List Ev × Option Dict
  | [] => ([], none)
  | attempt :: rest =>
    match attemptStep key username t attempt with
    | (evs, .ok d) => (evs, some d)
    | (evs, .error e) =>
      if (attempt : Int) < retries - 1 then
        let r2 := fetchGo key username t retries rest
        (evs ++ Ev.sleep 1 :: r2.1, r2.2)
      else
        (evs, some [("error", JVal.str ("An error occurred for @" ++ username ++ ": " ++ e))])

/-- Python `range(n)` for an int `n`: empty when `n ≤ 0`. -/
def pyRange (n : Int) : List Nat := List.range n.toNat

/-- The coroutine `fetch_user_data(username, session, semaphore)` from src/main.py,
parametrised by the secret key, the transport oracle and the `RETRIES`
configuration value: its event trace and its returned value (`none` =
Python `None`, `some d` = a returned dict). -/
def fetch_user_data (key username : String) (t : Transport) (retries : Int) :
    List Ev × Option Dict :=
  fetchGo key username t retries (pyRange retries)

/-- The task list built by `main`: one `fetch_user_data` coroutine per
username, in input order, task `i` drawing from transport oracle
`env i`. -/
def mainGo (key : String) (env : Nat → Transport) (retries : Int) :
    Nat → List String → List (Option Dict)
  | _, [] => []
  | i, u :: us =>
    (fetch_user_data key u (env i) retries).2 :: mainGo key env retries (i + 1) us

/-- The coroutine `main(usernames)` from src/main.py (named `pyMain` here since `main`
is reserved in Lean): `asyncio.gather` returns the task results
positionally, in the order the tasks were appended. -/
def pyMain (key : String) (usernames : List String) (env : Nat → Transport)
    (retries : Int) : List (Option Dict) :=
  mainGo key env retries 0 usernames

/-! ### Interleaving semantics of the gated batch

Each spawned task owns its fixed event trace and final result (both
determined by its transport oracle); a scheduler interleaves the tasks
one event at a time, with `acquire` enabled only while a semaphore slot
is free, exactly as `asyncio.Semaphore(CONCURRENCY_LIMIT)` admits it. -/

/-- A spawned task: the events it has yet to perform, the result it will
deliver to `gather`, and whether it currently holds a semaphore slot. -/
structure FetchTask where
  remaining : List Ev
  result : Option Dict
  holding : Bool
  deriving Repr, DecidableEq

/-- The batch system state: the tasks and the semaphore counter. -/
structure Sys where
  tasks : List FetchTask
  avail : Nat
  deriving Repr, DecidableEq

/-- Is the event semaphore traffic? -/
def isGate : Ev → Bool
  | .acquire => true
  | .release => true
  | _ => false

/-- How many tasks currently hold a semaphore slot. -/
def countHolding (s : Sys) : Nat := s.tasks.countP (fun tk => tk.holding)

/-- The results the tasks will deliver to `gather`, in task order. -/
def resultsOf (s : Sys) : List (Option Dict) := s.tasks.map (fun tk => tk.result)

/-- One scheduler step: some task performs its next event.  `acquire`
needs a free slot and takes it; `release` frees the slot the task holds;
any other event leaves the semaphore alone. -/
inductive Step : Sys → Sys → Prop where
  | acq (s : Sys) (i : Nat) (tk : FetchTask) (rest : List Ev)
      (hget : s.tasks.get? i = some tk)
      (hrem : tk.remaining = Ev.acquire :: rest)
      (hav : 0 < s.avail) :
      Step s ⟨s.tasks.set i ⟨rest, tk.result, true⟩, s.avail - 1⟩
  | rel (s : Sys) (i : Nat) (tk : FetchTask) (rest : List Ev)
      (hget : s.tasks.get? i = some tk)
      (hrem : tk.remaining = Ev.release :: rest)
      (hhold : tk.holding = true) :
      Step s ⟨s.tasks.set i ⟨rest, tk.result, false⟩, s.avail + 1⟩
  | work (s : Sys) (i : Nat) (tk : FetchTask) (e : Ev) (rest : List Ev)
      (hget : s.tasks.get? i = some tk)
      (hrem : tk.remaining = e :: rest)
      (hgate : isGate e = false) :
      Step s ⟨s.tasks.set i ⟨rest, tk.result, tk.holding⟩, s.avail⟩

/-- Reachability under the scheduler. -/
inductive Reach : Sys → Sys → Prop where
  | refl (s : Sys) : Reach s s
  | tail (a b c : Sys) : Reach a b → Step b c → Reach a c

/-- The tasks spawned by `main`, numbered from `i`, none holding a slot. -/
def spawn (key : String) (env : Nat → Transport) (retries : Int) :
    Nat → List String → List FetchTask
  | _, [] => []
  | i, u :: us =>
    ⟨(fetch_user_data key u (env i) retries).1,
     (fetch_user_data key u (env i) retries).2, false⟩ ::
      spawn key env retries (i + 1) us

/-- The initial state of a batch run: one task per username, the
semaphore at its full capacity. -/
def initSys (key : String) (usernames : List String) (env : Nat → Transport)
    (retries : Int) (limit : Nat) : Sys :=
  ⟨spawn key env retries 0 usernames, limit⟩

/-! ### Trace well-formedness (gate discipline) -/

/-- Checks the gate discipline of a trace, from a given holding state:
`acquire` only while not holding, `release` only while holding, both GETs
only while holding, `sleep` only while not holding, and the trace ends
not holding. -/
def wellGatedFrom : Bool → List Ev → Bool
  | holding, [] => !holding
  | holding, e :: rest =>
    match e with
    | .acquire => !holding && wellGatedFrom true rest
    | .release => holding && wellGatedFrom false rest
    | .profileGet _ _ => holding && wellGatedFrom holding rest
    | .imageGet _ _ => holding && wellGatedFrom holding rest
    | .sleep _ => !holding && wellGatedFrom holding rest

/-- Gate discipline of a complete trace, starting outside the gate. -/
def wellGated (l : List Ev) : Bool := wellGatedFrom false l

/-- Is the event an `acquire`? -/
def isAcquire : Ev → Bool
  | .acquire => true
  | _ => false

/-- Is the event a `release`? -/
def isRelease : Ev → Bool
  | .release => true
  | _ => false

/-- Is the event a profile GET? -/
def isProfileGet : Ev → Bool
  | .profileGet _ _ => true
  | _ => false

/-- Is the event an image GET? -/
def isImageGet : Ev → Bool
  | .imageGet _ _ => true
  | _ => false

/-- Is the event a backoff sleep? -/
def isSleep : Ev → Bool
  | .sleep _ => true
  | _ => false

/-! ### Concrete transports used as test inputs -/

/-- A transport whose profile GET raises on every attempt. -/
def tFail : Transport where
  profile := fun i => .error ("boom" ++ toString i)
  image := fun _ _ => .error "img"

/-- A parsed profile carrying an avatar url. -/
def profOk : Dict := [("name", .str "n"), ("avatar", .str "http-u")]

/-- A parsed profile with no avatar field. -/
def profNoAv : Dict := [("name", .str "n")]

/-- A transport whose profile parses fine and has no avatar field. -/
def tOkNoAvatar : Transport where
  profile := fun _ => .ok (200, .ok profNoAv)
  image := fun _ _ => .error "img"

/-- A transport whose profile GET succeeds but whose image GET raises,
on every attempt. -/
def tProfOkImgFail : Transport where
  profile := fun _ => .ok (200, .ok profOk)
  image := fun _ _ => .error "imgdown"

/-- A transport for which every attempt fully succeeds. -/
def tOk : Transport where
  profile := fun _ => .ok (200, .ok profOk)
  image := fun _ _ => .ok (200, [1, 2])

/-! ### Helper lemmas on one attempt -/

/-- The trace of one retry-loop iteration has one of two shapes: acquire,
profile GET, release, with the image GET inserted before the release
exactly when the avatar branch ran. -/
lemma attemptStep_trace_shape (key username : String) (t : Transport) (i : Nat) :
    (attemptStep key username t i).1 =
      [Ev.acquire, Ev.profileGet (apiUrl username) (authHeaders key), Ev.release] ∨
    ∃ av, (attemptStep key username t i).1 =
      [Ev.acquire, Ev.profileGet (apiUrl username) (authHeaders key),
       Ev.imageGet av [], Ev.release] := by
  unfold attemptStep
  repeat' split
  all_goals first
    | exact Or.inl rfl
    | exact Or.inr ⟨_, rfl⟩

/-- Setting a key in a dict makes it present with the set value. -/
lemma dget_dset (d : Dict) (k : String) (v : JVal) :
    dget (dset d k v) k = some v := by
  unfold dset dget
  split
  · rename_i h
    rw [List.find?_map]
    obtain ⟨p, hp, hpk⟩ := List.any_eq_true.mp h
    obtain ⟨q, hq⟩ : ∃ q, d.find? (fun r => r.1 == k) = some q :=
      Option.isSome_iff_exists.mp (List.find?_isSome.mpr ⟨p, hp, hpk⟩)
    have hpred : ((fun r => r.1 == k) ∘ fun r : String × JVal =>
        if r.1 == k then (k, v) else r) = fun r : String × JVal => r.1 == k := by
      funext r
      by_cases hr : r.1 = k <;> simp [hr]
    rw [hpred, hq]
    have hqk : q.1 = k := by
      have := List.find?_some hq
      simpa using this
    simp [hqk]
  · rw [List.find?_append]
    rename_i h
    have hnone : d.find? (fun r => r.1 == k) = none := by
      rw [List.find?_eq_none]
      intro p hp
      simp only [Bool.not_eq_true]
      by_contra hc
      exact h (List.any_eq_true.mpr ⟨p, hp, by simpa using hc⟩)
    simp [hnone, List.find?]

/-! ### Unfolding lemmas for the retry loop -/

/-- A successful attempt ends the loop with the returned dict. -/
lemma fetchGo_cons_ok (key username : String) (t : Transport) (r : Int)
    (a : Nat) (rest : List Nat) (evs : List Ev) (d : Dict)
    (h : attemptStep key username t a = (evs, .ok d)) :
    fetchGo key username t r (a :: rest) = (evs, some d) := by
  simp only [fetchGo, h]

/-- A failed attempt with attempts remaining sleeps 1 and continues. -/
lemma fetchGo_cons_retry (key username : String) (t : Transport) (r : Int)
    (a : Nat) (rest : List Nat) (evs : List Ev) (e : String)
    (h : attemptStep key username t a = (evs, .error e))
    (hlt : (a : Int) < r - 1) :
    fetchGo key username t r (a :: rest) =
      (evs ++ Ev.sleep 1 :: (fetchGo key username t r rest).1,
       (fetchGo key username t r rest).2) := by
  simp only [fetchGo, h, if_pos hlt]

/-- A failed attempt with no attempts remaining returns the error dict. -/
lemma fetchGo_cons_fail (key username : String) (t : Transport) (r : Int)
    (a : Nat) (rest : List Nat) (evs : List Ev) (e : String)
    (h : attemptStep key username t a = (evs, .error e))
    (hge : ¬(a : Int) < r - 1) :
    fetchGo key username t r (a :: rest) =
      (evs, some [("error",
        JVal.str ("An error occurred for @" ++ username ++ ": " ++ e))]) := by
  simp only [fetchGo, h, if_neg hge]

/-! ### Gate discipline of fetch traces -/

/-- Each attempt trace holds exactly one acquire, one release, one
profile GET, and no sleep. -/
lemma attemptStep_counts (key username : String) (t : Transport) (i : Nat) :
    (attemptStep key username t i).1.countP isAcquire = 1 ∧
    (attemptStep key username t i).1.countP isRelease = 1 ∧
    (attemptStep key username t i).1.countP isProfileGet = 1 ∧
    (attemptStep key username t i).1.countP isSleep = 0 := by
  rcases attemptStep_trace_shape key username t i with h | ⟨av, h⟩ <;>
    rw [h] <;>
    refine ⟨?_, ?_, ?_, ?_⟩ <;>
    simp [List.countP_cons, List.countP_nil, isAcquire, isRelease, isProfileGet, isSleep]

/-- The retry loop emits per-attempt balanced gate traffic: its whole
trace observes the gate discipline. -/
lemma fetchGo_wellGated (key username : String) (t : Transport) (r : Int)
    (l : List Nat) : wellGated (fetchGo key username t r l).1 = true := by
  induction l with
  | nil => rfl
  | cons a rest ih =>
    rcases hstep : attemptStep key username t a with ⟨evs, res⟩
    have hshape := attemptStep_trace_shape key username t a
    rw [hstep] at hshape
    simp only at hshape
    rcases res with e | d
    · by_cases hlt : (a : Int) < r - 1
      · rw [fetchGo_cons_retry key username t r a rest evs e hstep hlt]
        rcases hshape with h1 | ⟨av, h2⟩
        · rw [h1]
          simpa [wellGated, wellGatedFrom] using ih
        · rw [h2]
          simpa [wellGated, wellGatedFrom] using ih
      · rw [fetchGo_cons_fail key username t r a rest evs e hstep hlt]
        rcases hshape with h1 | ⟨av, h2⟩
        · rw [h1]; rfl
        · rw [h2]; rfl
    · rw [fetchGo_cons_ok key username t r a rest evs d hstep]
      rcases hshape with h1 | ⟨av, h2⟩
      · rw [h1]; rfl
      · rw [h2]; rfl

/-- The retry loop acquires and releases the semaphore equally often. -/
lemma fetchGo_acquire_eq_release (key username : String) (t : Transport) (r : Int)
    (l : List Nat) :
    (fetchGo key username t r l).1.countP isAcquire =
      (fetchGo key username t r l).1.countP isRelease := by
  induction l with
  | nil => rfl
  | cons a rest ih =>
    rcases hstep : attemptStep key username t a with ⟨evs, res⟩
    have hc := attemptStep_counts key username t a
    rw [hstep] at hc
    simp only at hc
    rcases res with e | d
    · by_cases hlt : (a : Int) < r - 1
      · rw [fetchGo_cons_retry key username t r a rest evs e hstep hlt]
        simp only [List.countP_append, List.countP_cons]
        simp [hc.1, hc.2.1, isAcquire, isRelease, ih]
      · rw [fetchGo_cons_fail key username t r a rest evs e hstep hlt]
        simp [hc.1, hc.2.1]
    · rw [fetchGo_cons_ok key username t r a rest evs d hstep]
      simp [hc.1, hc.2.1]

/-! ### Headers carried by the two GETs -/

/-- Within one attempt, the profile GET always carries the auth header
dict. -/
lemma attemptStep_profile_headers (key username : String) (t : Transport) (i : Nat)
    (url : String) (hs : List (String × String))
    (h : Ev.profileGet url hs ∈ (attemptStep key username t i).1) :
    hs = authHeaders key := by
  rcases attemptStep_trace_shape key username t i with hsh | ⟨av, hsh⟩ <;>
    rw [hsh] at h <;> simp at h <;> exact h.2

/-- Within one attempt, the image GET carries no headers at all. -/
lemma attemptStep_image_headers (key username : String) (t : Transport) (i : Nat)
    (url : JVal) (hs : List (String × String))
    (h : Ev.imageGet url hs ∈ (attemptStep key username t i).1) : hs = [] := by
  rcases attemptStep_trace_shape key username t i with hsh | ⟨av, hsh⟩ <;>
    rw [hsh] at h <;> simp at h
  exact h.2

/-- Across the whole retry loop, every profile GET carries the auth
header dict. -/
lemma fetchGo_profile_headers (key username : String) (t : Transport) (r : Int)
    (l : List Nat) (url : String) (hs : List (String × String))
    (h : Ev.profileGet url hs ∈ (fetchGo key username t r l).1) :
    hs = authHeaders key := by
  induction l with
  | nil => simp [fetchGo] at h
  | cons a rest ih =>
    rcases hstep : attemptStep key username t a with ⟨evs, res⟩
    have hevs : evs = (attemptStep key username t a).1 := by rw [hstep]
    rcases res with e | d
    · by_cases hlt : (a : Int) < r - 1
      · rw [fetchGo_cons_retry key username t r a rest evs e hstep hlt] at h
        simp only [List.mem_append, List.mem_cons] at h
        rcases h with h | h | h
        · exact attemptStep_profile_headers key username t a url hs (hevs ▸ h)
        · exact Ev.noConfusion h
        · exact ih h
      · rw [fetchGo_cons_fail key username t r a rest evs e hstep hlt] at h
        exact attemptStep_profile_headers key username t a url hs (hevs ▸ h)
    · rw [fetchGo_cons_ok key username t r a rest evs d hstep] at h
      exact attemptStep_profile_headers key username t a url hs (hevs ▸ h)

/-- Across the whole retry loop, every image GET carries no headers. -/
lemma fetchGo_image_headers (key username : String) (t : Transport) (r : Int)
    (l : List Nat) (url : JVal) (hs : List (String × String))
    (h : Ev.imageGet url hs ∈ (fetchGo key username t r l).1) : hs = [] := by
  induction l with
  | nil => simp [fetchGo] at h
  | cons a rest ih =>
    rcases hstep : attemptStep key username t a with ⟨evs, res⟩
    have hevs : evs = (attemptStep key username t a).1 := by rw [hstep]
    rcases res with e | d
    · by_cases hlt : (a : Int) < r - 1
      · rw [fetchGo_cons_retry key username t r a rest evs e hstep hlt] at h
        simp only [List.mem_append, List.mem_cons] at h
        rcases h with h | h | h
        · exact attemptStep_image_headers key username t a url hs (hevs ▸ h)
        · exact Ev.noConfusion h
        · exact ih h
      · rw [fetchGo_cons_fail key username t r a rest evs e hstep hlt] at h
        exact attemptStep_image_headers key username t a url hs (hevs ▸ h)
    · rw [fetchGo_cons_ok key username t r a rest evs d hstep] at h
      exact attemptStep_image_headers key username t a url hs (hevs ▸ h)

/-! ### Claim C2 -/

/-- C2 is false as stated: with the transport failing every attempt
(`tFail`), the fetch sequence for one identifier acquires and releases
the gate token three times, not once, and a release happens strictly
before a backoff sleep, so the token is not held across the retries and
their backoff sleeps. -/
theorem c2_held_across_retries_counterexample :
    (fetch_user_data "k" "alice" tFail RETRIES).1.countP isRelease = 3 ∧
    (fetch_user_data "k" "alice" tFail RETRIES).1.countP isRelease ≠ 1 ∧
    (fetch_user_data "k" "alice" tFail RETRIES).1.get? 2 = some Ev.release ∧
    (fetch_user_data "k" "alice" tFail RETRIES).1.get? 3 = some (Ev.sleep 1) := by
  refine ⟨by decide, by decide, by decide, by decide⟩

/-- C2 (amended): the gate token is acquired afresh at the start of each
attempt and released exactly once at the end of that attempt, on success
and on failure alike; within one attempt it is held continuously across
the profile GET and the chained image GET, and it is never held during a
backoff sleep.  Formally: every fetch trace observes the gate discipline
(`wellGated`), and acquires and releases are in bijection. -/
theorem c2_gate_held_per_attempt (key username : String) (t : Transport)
    (retries : Int) :
    wellGated (fetch_user_data key username t retries).1 = true ∧
    (fetch_user_data key username t retries).1.countP isAcquire =
      (fetch_user_data key username t retries).1.countP isRelease :=
  ⟨fetchGo_wellGated key username t retries (pyRange retries),
   fetchGo_acquire_eq_release key username t retries (pyRange retries)⟩

/-! ### Claim C8 -/

/-- C8: on every attempt, the profile GET carries exactly the bearer-style
Authorization header built from the injected secret, while the chained
image GET is issued with no headers at all (unauthenticated). -/
theorem c8_auth_on_profile_only (key username : String) (t : Transport)
    (retries : Int) :
    (∀ url hs, Ev.profileGet url hs ∈ (fetch_user_data key username t retries).1 →
      hs = [("Authorization", "Bearer " ++ key)]) ∧
    (∀ url hs, Ev.imageGet url hs ∈ (fetch_user_data key username t retries).1 →
      hs = []) :=
  ⟨fun url hs h => fetchGo_profile_headers key username t retries (pyRange retries) url hs h,
   fun url hs h => fetchGo_image_headers key username t retries (pyRange retries) url hs h⟩

/-- Witness for C8 at a concrete run: `tOk` performs both a profile GET
and an image GET, and the theorem pins their headers. -/
theorem c8_auth_on_profile_only_witness :
    ([("Authorization", "Bearer k")] : List (String × String)) =
      [("Authorization", "Bearer " ++ "k")] ∧
    ([] : List (String × String)) = [] :=
  ⟨(c8_auth_on_profile_only "k" "alice" tOk RETRIES).1 (apiUrl "alice")
      [("Authorization", "Bearer k")] (by decide),
   (c8_auth_on_profile_only "k" "alice" tOk RETRIES).2 (JVal.str "http-u")
      [] (by decide)⟩

/-! ### Behaviour of single attempts under given transport outcomes -/

/-- An attempt whose profile GET raises yields that error and the
three-event gated trace. -/
lemma attemptStep_profile_error (key username : String) (t : Transport) (i : Nat)
    (e : String) (h : t.profile i = Except.error e) :
    attemptStep key username t i =
      ([.acquire, .profileGet (apiUrl username) (authHeaders key), .release],
       Except.error e) := by
  simp only [attemptStep, h]

/-- An attempt whose profile GET returns 200 with a parsed profile whose
avatar field is falsy returns the profile extended with a null
avatar_image, making no image GET. -/
lemma attemptStep_no_avatar (key username : String) (t : Transport) (i : Nat)
    (data : Dict) (hprof : t.profile i = Except.ok (200, Except.ok data))
    (hav : truthyOpt (dget data "avatar") = false) :
    attemptStep key username t i =
      ([.acquire, .profileGet (apiUrl username) (authHeaders key), .release],
       Except.ok (dset data "avatar_image" JVal.null)) := by
  simp [attemptStep, hprof, hav]

/-! ### Claim C3 -/

/-- C3: for a transport failing the profile call on every attempt, the
fetch returns the Failure dict carrying the last attempt's error, after
exactly RETRIES = 3 gated attempts separated by exactly two backoff
sleeps of one time unit — the full trace is pinned. -/
theorem c3_failure_after_exactly_retries_attempts (key username : String)
    (t : Transport) (e : String)
    (h : ∀ i, i < 3 → ∃ m, t.profile i = Except.error m)
    (hlast : t.profile 2 = Except.error e) :
    (fetch_user_data key username t RETRIES).2 =
      some [("error", JVal.str ("An error occurred for @" ++ username ++ ": " ++ e))] ∧
    (fetch_user_data key username t RETRIES).1 =
      [Ev.acquire, Ev.profileGet (apiUrl username) (authHeaders key), Ev.release,
       Ev.sleep 1,
       Ev.acquire, Ev.profileGet (apiUrl username) (authHeaders key), Ev.release,
       Ev.sleep 1,
       Ev.acquire, Ev.profileGet (apiUrl username) (authHeaders key), Ev.release] ∧
    (fetch_user_data key username t RETRIES).1.countP isProfileGet = 3 ∧
    (fetch_user_data key username t RETRIES).1.countP isSleep = 2 := by
  obtain ⟨m0, h0⟩ := h 0 (by omega)
  obtain ⟨m1, h1⟩ := h 1 (by omega)
  have e0 := attemptStep_profile_error key username t 0 m0 h0
  have e1 := attemptStep_profile_error key username t 1 m1 h1
  have e2 := attemptStep_profile_error key username t 2 e hlast
  have hbase : pyRange RETRIES = [0, 1, 2] := by decide
  unfold fetch_user_data
  rw [hbase,
    fetchGo_cons_retry key username t RETRIES 0 [1, 2] _ m0 e0 (by decide),
    fetchGo_cons_retry key username t RETRIES 1 [2] _ m1 e1 (by decide),
    fetchGo_cons_fail key username t RETRIES 2 [] _ e e2 (by decide)]
  refine ⟨rfl, rfl, ?_, ?_⟩ <;>
    simp [List.countP_cons, List.countP_nil, isProfileGet, isSleep]

/-- Witness for C3: the all-failing transport `tFail`, whose last-attempt
error is "boom2". -/
theorem c3_failure_witness :
    (fetch_user_data "k" "alice" tFail RETRIES).2 =
      some [("error",
        JVal.str ("An error occurred for @" ++ "alice" ++ ": " ++ "boom2"))] ∧
    (fetch_user_data "k" "alice" tFail RETRIES).1 =
      [Ev.acquire, Ev.profileGet (apiUrl "alice") (authHeaders "k"), Ev.release,
       Ev.sleep 1,
       Ev.acquire, Ev.profileGet (apiUrl "alice") (authHeaders "k"), Ev.release,
       Ev.sleep 1,
       Ev.acquire, Ev.profileGet (apiUrl "alice") (authHeaders "k"), Ev.release] ∧
    (fetch_user_data "k" "alice" tFail RETRIES).1.countP isProfileGet = 3 ∧
    (fetch_user_data "k" "alice" tFail RETRIES).1.countP isSleep = 2 :=
  c3_failure_after_exactly_retries_attempts "k" "alice" tFail "boom2"
    (fun i _ => ⟨"boom" ++ toString i, rfl⟩) rfl

/-! ### Claim C7 -/

/-- C7: a first attempt whose profile succeeds with no avatar field
returns Success immediately with avatar_image = None: the outcome is the
parsed profile extended with a null avatar_image, and the whole run is a
single gated profile GET — zero image GETs, zero further attempts. -/
theorem c7_no_avatar_success_without_image_fetch (key username : String)
    (t : Transport) (data : Dict)
    (hprof : t.profile 0 = Except.ok (200, Except.ok data))
    (hav : dget data "avatar" = none) :
    (fetch_user_data key username t RETRIES).2 =
      some (dset data "avatar_image" JVal.null) ∧
    (fetch_user_data key username t RETRIES).1 =
      [Ev.acquire, Ev.profileGet (apiUrl username) (authHeaders key), Ev.release] := by
  have hfalsy : truthyOpt (dget data "avatar") = false := by rw [hav]; rfl
  have e0 := attemptStep_no_avatar key username t 0 data hprof hfalsy
  have hbase : pyRange RETRIES = [0, 1, 2] := by decide
  unfold fetch_user_data
  rw [hbase, fetchGo_cons_ok key username t RETRIES 0 [1, 2] _ _ e0]
  exact ⟨rfl, rfl⟩

/-- Witness for C7: `tOkNoAvatar` serves a profile with no avatar
field. -/
theorem c7_no_avatar_witness :
    (fetch_user_data "k" "alice" tOkNoAvatar RETRIES).2 =
      some (dset profNoAv "avatar_image" JVal.null) ∧
    (fetch_user_data "k" "alice" tOkNoAvatar RETRIES).1 =
      [Ev.acquire, Ev.profileGet (apiUrl "alice") (authHeaders "k"), Ev.release] :=
  c7_no_avatar_success_without_image_fetch "k" "alice" tOkNoAvatar profNoAv rfl rfl

/-! ### Totality of the retry loop -/

/-- The retry loop delivers an outcome dict whenever some attempt in its
range is a final one (its index at least `retries - 1`). -/
lemma fetchGo_isSome (key username : String) (t : Transport) (r : Int) :
    ∀ l : List Nat, (∃ a ∈ l, ¬(a : Int) < r - 1) →
      ∃ d, (fetchGo key username t r l).2 = some d := by
  intro l
  induction l with
  | nil =>
    rintro ⟨a, ha, _⟩
    cases ha
  | cons a rest ih =>
    rintro ⟨b, hb, hbc⟩
    rcases hstep : attemptStep key username t a with ⟨evs, res⟩
    rcases res with e | d
    · by_cases hlt : (a : Int) < r - 1
      · rw [fetchGo_cons_retry key username t r a rest evs e hstep hlt]
        apply ih
        rcases List.mem_cons.mp hb with hba | hbr
        · exact absurd (hba ▸ hlt) hbc
        · exact ⟨b, hbr, hbc⟩
      · rw [fetchGo_cons_fail key username t r a rest evs e hstep hlt]
        exact ⟨_, rfl⟩
    · rw [fetchGo_cons_ok key username t r a rest evs d hstep]
      exact ⟨d, rfl⟩

/-- With at least one configured attempt, `fetch_user_data` always
returns an outcome dict. -/
lemma fetch_isSome (key username : String) (t : Transport) (r : Int)
    (hr : 1 ≤ r) : ∃ d, (fetch_user_data key username t r).2 = some d := by
  apply fetchGo_isSome
  refine ⟨r.toNat - 1, List.mem_range.mpr (by omega), by omega⟩

/-! ### Claim C9 -/

/-- C9: if the RETRIES configuration value is 0 or negative, the attempt
loop body never executes and `fetch_user_data` returns Python None with
an empty trace; the one-outcome-per-identifier guarantee holds exactly
under the precondition RETRIES ≥ 1. -/
theorem c9_retries_nonpositive_returns_none (key username : String)
    (t : Transport) (r : Int) :
    (r ≤ 0 → fetch_user_data key username t r = ([], none)) ∧
    (1 ≤ r → ∃ d, (fetch_user_data key username t r).2 = some d) := by
  constructor
  · intro hr
    unfold fetch_user_data
    have : pyRange r = [] := by
      unfold pyRange
      have : r.toNat = 0 := by omega
      rw [this]
      rfl
    rw [this]
    rfl
  · exact fetch_isSome key username t r

/-- Witness for C9 at RETRIES = -2 (loop skipped, None returned) and at
the configured RETRIES = 3 (an outcome dict is returned). -/
theorem c9_retries_nonpositive_witness :
    fetch_user_data "k" "u" tFail (-2) = ([], none) ∧
    ∃ d, (fetch_user_data "k" "u" tFail 3).2 = some d :=
  ⟨(c9_retries_nonpositive_returns_none "k" "u" tFail (-2)).1 (by decide),
   (c9_retries_nonpositive_returns_none "k" "u" tFail 3).2 (by decide)⟩

/-! ### Positional correspondence of the batch -/

/-- Entry `i` of the task-result list built from start index `start` is
the fetch outcome of username `i` under transport `env (start + i)`. -/
lemma mainGo_get? (key : String) (env : Nat → Transport) (r : Int) :
    ∀ (us : List String) (start i : Nat) (u : String), us.get? i = some u →
      (mainGo key env r start us).get? i =
        some (fetch_user_data key u (env (start + i)) r).2 := by
  intro us
  induction us with
  | nil =>
    intro start i u h
    cases h
  | cons v vs ih =>
    intro start i u h
    cases i with
    | zero =>
      simp only [List.get?] at h
      cases h
      rfl
    | succ j =>
      simp only [List.get?] at h
      simp only [mainGo, List.get?]
      rw [ih (start + 1) j u h]
      have harith : start + 1 + j = start + (j + 1) := by omega
      rw [harith]

/-- The batch output has one entry per input username. -/
lemma mainGo_length (key : String) (env : Nat → Transport) (r : Int) :
    ∀ (us : List String) (start : Nat),
      (mainGo key env r start us).length = us.length := by
  intro us
  induction us with
  | nil => intro start; rfl
  | cons v vs ih =>
    intro start
    simp only [mainGo, List.length_cons, ih (start + 1)]

/-! ### Claim C5 -/

/-- C5: every identifier in a batch yields exactly one outcome: the entry
at its position exists and is a returned dict (no fault escapes
`fetch_user_data`, no position is missing), and that entry depends only
on the identifier at that position and its own transport, so a sibling
identifier failing — or the rest of the batch changing entirely — cannot
abort or corrupt it. -/
theorem c5_failures_isolated_one_outcome_each (key : String) (us : List String)
    (env : Nat → Transport) :
    (∀ i u, us.get? i = some u →
      ∃ d, (pyMain key us env RETRIES).get? i = some (some d)) ∧
    (∀ (us2 : List String) (env2 : Nat → Transport) (i : Nat) (u : String),
      us.get? i = some u → us2.get? i = some u → env i = env2 i →
      (pyMain key us env RETRIES).get? i = (pyMain key us2 env2 RETRIES).get? i) := by
  constructor
  · intro i u h
    obtain ⟨d, hd⟩ := fetch_isSome key u (env (0 + i)) RETRIES (by decide)
    refine ⟨d, ?_⟩
    rw [pyMain, mainGo_get? key env RETRIES us 0 i u h, hd]
  · intro us2 env2 i u h h2 henv
    rw [pyMain, pyMain, mainGo_get? key env RETRIES us 0 i u h,
      mainGo_get? key env2 RETRIES us2 0 i u h2]
    simp only [Nat.zero_add, henv]

/-- Witness for C5: a two-identifier batch where the sibling of "a"
permanently fails; position 0 still carries its own Success outcome, and
it coincides with the outcome "a" gets in a batch with no failing
sibling at all. -/
theorem c5_failures_isolated_witness :
    (∃ d, (pyMain "k" ["a", "bad"] (fun i => if i = 0 then tOk else tFail)
        RETRIES).get? 0 = some (some d)) ∧
    (pyMain "k" ["a", "bad"] (fun i => if i = 0 then tOk else tFail)
        RETRIES).get? 0 =
      (pyMain "k" ["a"] (fun _ => tOk) RETRIES).get? 0 :=
  ⟨(c5_failures_isolated_one_outcome_each "k" ["a", "bad"]
      (fun i => if i = 0 then tOk else tFail)).1 0 "a" rfl,
   (c5_failures_isolated_one_outcome_each "k" ["a", "bad"]
      (fun i => if i = 0 then tOk else tFail)).2 ["a"] (fun _ => tOk) 0 "a"
      rfl rfl rfl⟩

/-- An attempt whose profile GET returns a non-200 status raises and
yields the HTTP error. -/
lemma attemptStep_bad_status (key username : String) (t : Transport) (i : Nat)
    (st : Nat) (parsed : Except String Dict)
    (hp : t.profile i = Except.ok (st, parsed)) (hst : st ≠ 200) :
    attemptStep key username t i =
      ([.acquire, .profileGet (apiUrl username) (authHeaders key), .release],
       Except.error ("HTTP Error " ++ toString st)) := by
  simp [attemptStep, hp, hst]

/-- An attempt whose profile body fails to parse yields that error. -/
lemma attemptStep_parse_error (key username : String) (t : Transport) (i : Nat)
    (e : String) (hp : t.profile i = Except.ok (200, Except.error e)) :
    attemptStep key username t i =
      ([.acquire, .profileGet (apiUrl username) (authHeaders key), .release],
       Except.error e) := by
  simp [attemptStep, hp]

/-- An attempt whose chained image GET raises yields that error. -/
lemma attemptStep_image_error (key username : String) (t : Transport) (i : Nat)
    (data : Dict) (e : String)
    (hp : t.profile i = Except.ok (200, Except.ok data))
    (hav : truthyOpt (dget data "avatar") = true)
    (himg : t.image i ((dget data "avatar").getD JVal.null) = Except.error e) :
    attemptStep key username t i =
      ([.acquire, .profileGet (apiUrl username) (authHeaders key),
        .imageGet ((dget data "avatar").getD JVal.null) [], .release],
       Except.error e) := by
  simp [attemptStep, hp, hav, himg]

/-- An attempt whose chained image GET returns a non-200 status raises
and yields the image HTTP error. -/
lemma attemptStep_image_bad_status (key username : String) (t : Transport)
    (i : Nat) (data : Dict) (st : Nat) (b : List Nat)
    (hp : t.profile i = Except.ok (200, Except.ok data))
    (hav : truthyOpt (dget data "avatar") = true)
    (himg : t.image i ((dget data "avatar").getD JVal.null) = Except.ok (st, b))
    (hst : st ≠ 200) :
    attemptStep key username t i =
      ([.acquire, .profileGet (apiUrl username) (authHeaders key),
        .imageGet ((dget data "avatar").getD JVal.null) [], .release],
       Except.error ("HTTP Error " ++ toString st ++ " while fetching avatar image.")) := by
  simp [attemptStep, hp, hav, himg, hst]

/-- An attempt whose image GET succeeds attaches the bytes and
returns. -/
lemma attemptStep_image_ok (key username : String) (t : Transport) (i : Nat)
    (data : Dict) (b : List Nat)
    (hp : t.profile i = Except.ok (200, Except.ok data))
    (hav : truthyOpt (dget data "avatar") = true)
    (himg : t.image i ((dget data "avatar").getD JVal.null) = Except.ok (200, b)) :
    attemptStep key username t i =
      ([.acquire, .profileGet (apiUrl username) (authHeaders key),
        .imageGet ((dget data "avatar").getD JVal.null) [], .release],
       Except.ok (dset data "avatar_image" (JVal.bytes b))) := by
  simp [attemptStep, hp, hav, himg]

/-- A successful attempt can only arise from a 200 profile that parsed,
with either a falsy avatar field and a null image payload, or a truthy
one whose image GET returned 200 with the attached bytes. -/
lemma attemptStep_ok_cases (key username : String) (t : Transport) (i : Nat)
    (d : Dict) (h : (attemptStep key username t i).2 = Except.ok d) :
    ∃ data, t.profile i = Except.ok (200, Except.ok data) ∧
      ((truthyOpt (dget data "avatar") = false ∧
        d = dset data "avatar_image" JVal.null) ∨
       (truthyOpt (dget data "avatar") = true ∧
        ∃ b, t.image i ((dget data "avatar").getD JVal.null) = Except.ok (200, b) ∧
          d = dset data "avatar_image" (JVal.bytes b))) := by
  rcases hp : t.profile i with e | ⟨st, parsed⟩
  · rw [attemptStep_profile_error key username t i e hp] at h
    exact absurd h (by simp)
  · by_cases hst : st = 200
    · subst hst
      rcases parsed with e | data
      · rw [attemptStep_parse_error key username t i e hp] at h
        exact absurd h (by simp)
      · by_cases hav : truthyOpt (dget data "avatar") = true
        · rcases hi : t.image i ((dget data "avatar").getD JVal.null) with e | ⟨ist, content⟩
          · rw [attemptStep_image_error key username t i data e hp hav hi] at h
            exact absurd h (by simp)
          · by_cases hist : ist = 200
            · subst hist
              rw [attemptStep_image_ok key username t i data content hp hav hi] at h
              simp only [Except.ok.injEq] at h
              exact ⟨data, rfl, Or.inr ⟨hav, content, hi, h.symm⟩⟩
            · rw [attemptStep_image_bad_status key username t i data ist content
                hp hav hi hist] at h
              exact absurd h (by simp)
        · have hav2 : truthyOpt (dget data "avatar") = false := by
            simpa using hav
          rw [attemptStep_no_avatar key username t i data hp hav2] at h
          simp only [Except.ok.injEq] at h
          exact ⟨data, rfl, Or.inl ⟨hav2, h.symm⟩⟩
    · rw [attemptStep_bad_status key username t i st parsed hp hst] at h
      exact absurd h (by simp)

/-! ### Claim C4 -/

/-- C4: when the profile fetch succeeds but the chained image fetch fails
on every attempt, the image failure is handled exactly like a profile
failure: each attempt ends in a caught error (never a partial Success
without the image), the whole profile+image sequence is re-run from the
top on each retry (three profile GETs in the trace), and once attempts
are exhausted the overall outcome is the Failure dict. -/
theorem c4_image_failure_no_partial_success (key username : String) (t : Transport)
    (h : ∀ i, i < 3 → ∃ data, t.profile i = Except.ok (200, Except.ok data) ∧
      truthyOpt (dget data "avatar") = true ∧
      ∀ st b, t.image i ((dget data "avatar").getD JVal.null) = Except.ok (st, b) →
        st ≠ 200) :
    (∀ i, i < 3 → ∃ e, (attemptStep key username t i).2 = Except.error e) ∧
    (∃ msg, (fetch_user_data key username t RETRIES).2 =
      some [("error", JVal.str msg)]) ∧
    (fetch_user_data key username t RETRIES).1.countP isProfileGet = 3 := by
  have herr : ∀ i, i < 3 → ∃ e, (attemptStep key username t i).2 = Except.error e := by
    intro i hi
    obtain ⟨data, hprof, hav, himg⟩ := h i hi
    rcases hi2 : t.image i ((dget data "avatar").getD JVal.null) with e | ⟨st, b⟩
    · exact ⟨e, by
        rw [attemptStep_image_error key username t i data e hprof hav hi2]⟩
    · exact ⟨_, by
        rw [attemptStep_image_bad_status key username t i data st b hprof hav hi2
          (himg st b hi2)]⟩
  refine ⟨herr, ?_⟩
  obtain ⟨e0, he0⟩ := herr 0 (by omega)
  obtain ⟨e1, he1⟩ := herr 1 (by omega)
  obtain ⟨e2, he2⟩ := herr 2 (by omega)
  rcases h0 : attemptStep key username t 0 with ⟨evs0, res0⟩
  rcases h1 : attemptStep key username t 1 with ⟨evs1, res1⟩
  rcases h2 : attemptStep key username t 2 with ⟨evs2, res2⟩
  rw [h0] at he0
  rw [h1] at he1
  rw [h2] at he2
  simp only at he0 he1 he2
  subst he0 he1 he2
  have hc0 := (attemptStep_counts key username t 0).2.2.1
  have hc1 := (attemptStep_counts key username t 1).2.2.1
  have hc2 := (attemptStep_counts key username t 2).2.2.1
  rw [h0] at hc0
  rw [h1] at hc1
  rw [h2] at hc2
  simp only at hc0 hc1 hc2
  have hbase : pyRange RETRIES = [0, 1, 2] := by decide
  unfold fetch_user_data
  rw [hbase,
    fetchGo_cons_retry key username t RETRIES 0 [1, 2] evs0 e0 h0 (by decide),
    fetchGo_cons_retry key username t RETRIES 1 [2] evs1 e1 h1 (by decide),
    fetchGo_cons_fail key username t RETRIES 2 [] evs2 e2 h2 (by decide)]
  refine ⟨⟨_, rfl⟩, ?_⟩
  simp [List.countP_append, List.countP_cons, isProfileGet, hc0, hc1, hc2]

/-- Witness for C4: `tProfOkImgFail` always serves the profile and always
fails the image GET. -/
theorem c4_image_failure_witness :
    (∀ i, i < 3 →
      ∃ e, (attemptStep "k" "alice" tProfOkImgFail i).2 = Except.error e) ∧
    (∃ msg, (fetch_user_data "k" "alice" tProfOkImgFail RETRIES).2 =
      some [("error", JVal.str msg)]) ∧
    (fetch_user_data "k" "alice" tProfOkImgFail RETRIES).1.countP isProfileGet = 3 :=
  c4_image_failure_no_partial_success "k" "alice" tProfOkImgFail
    (fun i _ => ⟨profOk, rfl, rfl, fun st b hb => by cases hb⟩)

/-- Every outcome dict delivered by the retry loop is either the Failure
dict built in the except-branch or the value returned by some successful
attempt in the range. -/
lemma fetchGo_result_cases (key username : String) (t : Transport) (r : Int) :
    ∀ (l : List Nat) (d : Dict), (fetchGo key username t r l).2 = some d →
      (∃ e, d = [("error",
        JVal.str ("An error occurred for @" ++ username ++ ": " ++ e))]) ∨
      (∃ i, i ∈ l ∧ (attemptStep key username t i).2 = Except.ok d) := by
  intro l
  induction l with
  | nil =>
    intro d h
    simp [fetchGo] at h
  | cons a rest ih =>
    intro d h
    rcases hstep : attemptStep key username t a with ⟨evs, res⟩
    rcases res with e | d2
    · by_cases hlt : (a : Int) < r - 1
      · rw [fetchGo_cons_retry key username t r a rest evs e hstep hlt] at h
        simp only at h
        rcases ih d h with hl | ⟨i, hi, hok⟩
        · exact Or.inl hl
        · exact Or.inr ⟨i, List.mem_cons_of_mem a hi, hok⟩
      · rw [fetchGo_cons_fail key username t r a rest evs e hstep hlt] at h
        simp only [Option.some.injEq] at h
        exact Or.inl ⟨e, h.symm⟩
    · rw [fetchGo_cons_ok key username t r a rest evs d2 hstep] at h
      simp only [Option.some.injEq] at h
      subst h
      exact Or.inr ⟨a, List.mem_cons_self a rest, by rw [hstep]⟩

/-! ### Claim C10 -/

/-- C10: every outcome dict of `fetch_user_data` has one of two shapes —
a Failure whose only key is "error", with a message embedding the
identifier and the caught cause, or a Success that is the parsed profile
extended so that "avatar_image" is always present: null when the avatar
field was falsy, the raw bytes of a 200 image response when it was
truthy. -/
theorem c10_outcome_dict_shapes (key username : String) (t : Transport) (r : Int)
    (d : Dict) (h : (fetch_user_data key username t r).2 = some d) :
    (∃ e, d = [("error",
      JVal.str ("An error occurred for @" ++ username ++ ": " ++ e))]) ∨
    (∃ i data v, t.profile i = Except.ok (200, Except.ok data) ∧
      d = dset data "avatar_image" v ∧
      dget d "avatar_image" = some v ∧
      ((v = JVal.null ∧ truthyOpt (dget data "avatar") = false) ∨
       (∃ b, v = JVal.bytes b ∧
         t.image i ((dget data "avatar").getD JVal.null) = Except.ok (200, b)))) := by
  rcases fetchGo_result_cases key username t r (pyRange r) d h with hl | ⟨i, _, hok⟩
  · exact Or.inl hl
  · obtain ⟨data, hp, hcase⟩ := attemptStep_ok_cases key username t i d hok
    rcases hcase with ⟨hav, hd⟩ | ⟨hav, b, himg, hd⟩
    · refine Or.inr ⟨i, data, JVal.null, hp, hd, ?_, Or.inl ⟨rfl, hav⟩⟩
      rw [hd]
      exact dget_dset data "avatar_image" JVal.null
    · refine Or.inr ⟨i, data, JVal.bytes b, hp, hd, ?_, Or.inr ⟨b, rfl, himg⟩⟩
      rw [hd]
      exact dget_dset data "avatar_image" (JVal.bytes b)

/-- Witness for C10 at the fully succeeding transport `tOk`. -/
theorem c10_outcome_dict_shapes_witness :
    (∃ e, ([("name", JVal.str "n"), ("avatar", JVal.str "http-u"),
        ("avatar_image", JVal.bytes [1, 2])] : Dict) = [("error",
      JVal.str ("An error occurred for @" ++ "alice" ++ ": " ++ e))]) ∨
    (∃ i data v, tOk.profile i = Except.ok (200, Except.ok data) ∧
      ([("name", JVal.str "n"), ("avatar", JVal.str "http-u"),
        ("avatar_image", JVal.bytes [1, 2])] : Dict) =
        dset data "avatar_image" v ∧
      dget [("name", JVal.str "n"), ("avatar", JVal.str "http-u"),
        ("avatar_image", JVal.bytes [1, 2])] "avatar_image" = some v ∧
      ((v = JVal.null ∧ truthyOpt (dget data "avatar") = false) ∨
       (∃ b, v = JVal.bytes b ∧
         tOk.image i ((dget data "avatar").getD JVal.null) =
           Except.ok (200, b)))) :=
  c10_outcome_dict_shapes "k" "alice" tOk RETRIES
    [("name", JVal.str "n"), ("avatar", JVal.str "http-u"),
     ("avatar_image", JVal.bytes [1, 2])] (by decide)

/-! ### Scheduler invariants -/

/-- Replacing one element changes `countP` by the difference of the two
elements' predicate values. -/
lemma countP_set_eq {α : Type} (p : α → Bool) :
    ∀ (l : List α) (i : Nat) (x y : α), l.get? i = some x →
      (l.set i y).countP p + (if p x then 1 else 0) =
        l.countP p + (if p y then 1 else 0) := by
  intro l
  induction l with
  | nil =>
    intro i x y h
    cases h
  | cons a as ih =>
    intro i x y h
    cases i with
    | zero =>
      simp only [List.get?, Option.some.injEq] at h
      subst h
      simp only [List.set, List.countP_cons]
      omega
    | succ j =>
      simp only [List.get?] at h
      simp only [List.set, List.countP_cons]
      have := ih j x y h
      omega

/-- Replacing one element by another with the same image leaves the
mapped list unchanged. -/
lemma map_set_same {α β : Type} (f : α → β) :
    ∀ (l : List α) (i : Nat) (x y : α), l.get? i = some x → f y = f x →
      (l.set i y).map f = l.map f := by
  intro l
  induction l with
  | nil =>
    intro i x y h _
    cases h
  | cons a as ih =>
    intro i x y h hf
    cases i with
    | zero =>
      simp only [List.get?, Option.some.injEq] at h
      subst h
      simp [List.set, hf]
    | succ j =>
      simp only [List.get?] at h
      simp [List.set, ih j x y h hf]

/-- One scheduler step preserves the semaphore accounting bound: holders
plus free slots never exceed the capacity. -/
lemma step_inv (limit : Nat) (s s2 : Sys) (h : Step s s2)
    (hI : countHolding s + s.avail ≤ limit) :
    countHolding s2 + s2.avail ≤ limit := by
  cases h with
  | acq i tk rest hget hrem hav =>
    have hc := countP_set_eq (fun tk : FetchTask => tk.holding) s.tasks i tk
      ⟨rest, tk.result, true⟩ hget
    unfold countHolding at *
    simp only at hc ⊢
    by_cases hh : tk.holding <;> simp [hh] at hc <;> omega
  | rel i tk rest hget hrem hhold =>
    have hc := countP_set_eq (fun tk : FetchTask => tk.holding) s.tasks i tk
      ⟨rest, tk.result, false⟩ hget
    unfold countHolding at *
    simp only [hhold] at hc
    simp only at hc ⊢
    simp at hc
    omega
  | work i tk e rest hget hrem hgate =>
    have hc := countP_set_eq (fun tk : FetchTask => tk.holding) s.tasks i tk
      ⟨rest, tk.result, tk.holding⟩ hget
    unfold countHolding at *
    simp only at hc ⊢
    omega

/-- The semaphore accounting bound holds in every reachable state. -/
lemma reach_inv (limit : Nat) (s0 s : Sys) (h : Reach s0 s)
    (hI : countHolding s0 + s0.avail ≤ limit) :
    countHolding s + s.avail ≤ limit := by
  induction h with
  | refl => exact hI
  | tail b c hab hbc ih => exact step_inv limit b c hbc ih

/-- No scheduler step changes any task's delivered result. -/
lemma step_results (s s2 : Sys) (h : Step s s2) : resultsOf s2 = resultsOf s := by
  cases h with
  | acq i tk rest hget hrem hav =>
    unfold resultsOf
    exact map_set_same (fun tk : FetchTask => tk.result) s.tasks i tk
      ⟨rest, tk.result, true⟩ hget rfl
  | rel i tk rest hget hrem hhold =>
    unfold resultsOf
    exact map_set_same (fun tk : FetchTask => tk.result) s.tasks i tk
      ⟨rest, tk.result, false⟩ hget rfl
  | work i tk e rest hget hrem hgate =>
    unfold resultsOf
    exact map_set_same (fun tk : FetchTask => tk.result) s.tasks i tk
      ⟨rest, tk.result, tk.holding⟩ hget rfl

/-- The delivered results are fixed across any reachable scheduling. -/
lemma reach_results (s0 s : Sys) (h : Reach s0 s) : resultsOf s = resultsOf s0 := by
  induction h with
  | refl => rfl
  | tail b c hab hbc ih => rw [step_results b c hbc, ih]

/-- The spawned tasks carry exactly the `main` results, positionally. -/
lemma spawn_results (key : String) (env : Nat → Transport) (r : Int) :
    ∀ (us : List String) (start : Nat),
      (spawn key env r start us).map (fun tk => tk.result) =
        mainGo key env r start us := by
  intro us
  induction us with
  | nil => intro start; rfl
  | cons v vs ih =>
    intro start
    simp [spawn, mainGo, ih (start + 1)]

/-- No spawned task holds a semaphore slot initially. -/
lemma spawn_holding (key : String) (env : Nat → Transport) (r : Int) :
    ∀ (us : List String) (start : Nat),
      (spawn key env r start us).countP (fun tk => tk.holding) = 0 := by
  intro us
  induction us with
  | nil => intro start; rfl
  | cons v vs ih =>
    intro start
    simp [spawn, List.countP_cons, ih (start + 1)]

/-! ### Claim C6 -/

/-- C6: in every state the scheduler can reach from the start of a batch
run — any batch size, any interleaving — at most CONCURRENCY_LIMIT = 20
fetch sequences hold a gate slot simultaneously. -/
theorem c6_at_most_limit_slots_held (key : String) (us : List String)
    (env : Nat → Transport) (retries : Int) (s : Sys)
    (h : Reach (initSys key us env retries CONCURRENCY_LIMIT) s) :
    countHolding s ≤ CONCURRENCY_LIMIT := by
  have h0 : countHolding (initSys key us env retries CONCURRENCY_LIMIT) +
      (initSys key us env retries CONCURRENCY_LIMIT).avail ≤ CONCURRENCY_LIMIT := by
    unfold initSys countHolding
    simp [spawn_holding]
  have := reach_inv CONCURRENCY_LIMIT _ s h h0
  omega

/-- Witness for C6 at the start of a concrete two-identifier batch. -/
theorem c6_at_most_limit_slots_held_witness :
    countHolding (initSys "k" ["a", "b"] (fun _ => tFail) RETRIES
      CONCURRENCY_LIMIT) ≤ CONCURRENCY_LIMIT :=
  c6_at_most_limit_slots_held "k" ["a", "b"] (fun _ => tFail) RETRIES _
    (Reach.refl _)

/-! ### Claim C1 -/

/-- C1: for every input list (duplicates included), whatever order the
scheduler interleaves and completes the gated fetches in, the batch
delivers the same output list: one outcome per input, of the same
length, and the outcome at position i is exactly the `fetch_user_data`
outcome for the identifier at input position i. -/
theorem c1_output_positionally_matches_input (key : String) (us : List String)
    (env : Nat → Transport) (s : Sys)
    (h : Reach (initSys key us env RETRIES CONCURRENCY_LIMIT) s) :
    resultsOf s = pyMain key us env RETRIES ∧
    (pyMain key us env RETRIES).length = us.length ∧
    (∀ i u, us.get? i = some u →
      (pyMain key us env RETRIES).get? i =
        some (fetch_user_data key u (env i) RETRIES).2) := by
  refine ⟨?_, mainGo_length key env RETRIES us 0, ?_⟩
  · rw [reach_results _ s h]
    unfold initSys resultsOf
    simpa using spawn_results key env RETRIES us 0
  · intro i u hu
    rw [pyMain, mainGo_get? key env RETRIES us 0 i u hu, Nat.zero_add]

/-- Witness for C1 on a duplicate-bearing concrete batch. -/
theorem c1_output_positionally_matches_input_witness :
    resultsOf (initSys "k" ["a", "a"] (fun _ => tOk) RETRIES CONCURRENCY_LIMIT) =
      pyMain "k" ["a", "a"] (fun _ => tOk) RETRIES ∧
    (pyMain "k" ["a", "a"] (fun _ => tOk) RETRIES).length =
      (["a", "a"] : List String).length ∧
    (∀ i u, (["a", "a"] : List String).get? i = some u →
      (pyMain "k" ["a", "a"] (fun _ => tOk) RETRIES).get? i =
        some (fetch_user_data "k" u ((fun _ => tOk) i) RETRIES).2) :=
  c1_output_positionally_matches_input "k" ["a", "a"] (fun _ => tOk) _
    (Reach.refl _)
